import Mathlib

/-!
Shallow embedding of the "download-src" subcommand of deployctl
(src/subcommands/download_src.ts) and the pieces of its dependencies that
the subcommand exercises: the WHATWG URL constructor (protocol and pathname
of an absolute URI), and `fromFileUrl` / `join` from the deno std posix path
module (std@0.194.0).

Modelling conventions:
  - machine strings are Lean `String`s, manipulated through explicit
    `List Char` recursions so that every definition evaluates by kernel
    reduction;
  - a JS function that can throw is embedded with an explicit outcome
    constructor for the throw;
  - process side effects (spinner notifications, mkdir, file writes) are
    recorded in an explicit effect trace.
-/

namespace DeployCtl

/-- Does the character list `s` start with the pattern `p`? (JS
`String.prototype.startsWith`, on exploded strings). -/
def listStartsWith : List Char → List Char → Bool
  | [], _ => true
  | _ :: _, [] => false
  | p :: ps, c :: cs => p == c && listStartsWith ps cs

/-- JS `s.startsWith(pat)`. -/
def strStartsWith (s pat : String) : Bool :=
  listStartsWith pat.data s.data

/-- Drop the first `n` characters of a string. -/
def strDrop (s : String) (n : Nat) : String :=
  ⟨s.data.drop n⟩

/-- Split a character list at a separator character; always returns at least
one (possibly empty) piece. -/
def splitOnChar (sep : Char) : List Char → List (List Char)
  | [] => [[]]
  | c :: cs =>
    match splitOnChar sep cs with
    | [] => if c == sep then [[], []] else [[c]]
    | h :: t => if c == sep then [] :: h :: t else (c :: h) :: t

/-- Split a character list at the first colon: `some (before, after)` when a
colon occurs, `none` otherwise. -/
def takeUntilColon : List Char → Option (List Char × List Char)
  | [] => none
  | c :: cs =>
    if c == ':' then some ([], cs)
    else
      match takeUntilColon cs with
      | none => none
      | some (pre, post) => some (c :: pre, post)

/-- ASCII lower-casing of one character (scheme normalisation of the URL
constructor). -/
def charLower (c : Char) : Char :=
  if 'A' ≤ c ∧ c ≤ 'Z' then Char.ofNat (c.toNat + 32) else c

/-- First character admissible in a URI scheme. -/
def isSchemeStart (c : Char) : Bool :=
  ('a' ≤ c && c ≤ 'z') || ('A' ≤ c && c ≤ 'Z')

/-- Non-initial character admissible in a URI scheme. -/
def isSchemeChar (c : Char) : Bool :=
  isSchemeStart c || ('0' ≤ c && c ≤ '9') || c == '+' || c == '-' || c == '.'

/-- The value of one hexadecimal digit, if `c` is one. -/
def hexVal (c : Char) : Option Nat :=
  if '0' ≤ c ∧ c ≤ '9' then some (c.toNat - '0'.toNat)
  else if 'a' ≤ c ∧ c ≤ 'f' then some (c.toNat - 'a'.toNat + 10)
  else if 'A' ≤ c ∧ c ≤ 'F' then some (c.toNat - 'A'.toNat + 10)
  else none

/-- Percent-decoding of a character list, single-byte escapes; a `%` that is
not followed by two hex digits is kept verbatim (this mirrors the
`decodeURIComponent(pathname.replace(/%(?![0-9A-Fa-f]\x7b2\x7d)/g, "%25"))`
dance of std posix `fromFileUrl`, restricted to ASCII-range escapes). -/
def percentDecode : List Char → List Char
  | [] => []
  | '%' :: a :: b :: rest =>
    match hexVal a, hexVal b with
    | some x, some y => Char.ofNat (16 * x + y) :: percentDecode rest
    | _, _ => '%' :: percentDecode (a :: b :: rest)
  | c :: rest => c :: percentDecode rest

/-- The observable part of a parsed WHATWG URL: its `protocol` (scheme with
trailing colon) and its `pathname`. Host, port, query and fragment are not
retained — the embedded subcommand never reads them. -/
structure URLRec where
  protocol : String
  pathname : String
  deriving DecidableEq, Repr

/-- `new URL(s)` for an absolute URI, modelled on the subset the subcommand
meets: an ASCII scheme followed by a colon; a `//`-authority whose host part
ends at the first slash; the pathname runs to the end of the input (query and
fragment splitting, dot-segment normalisation, percent-encoding of the
pathname and host validation of the full WHATWG algorithm are omitted — the
deployment entry specifiers contain none of those). `none` is the model of
the `TypeError` the constructor throws on an unparsable input. -/
def parseURL (s : String) : Option URLRec :=
  match takeUntilColon s.data with
  | none => none
  | some (schemeChars, rest) =>
    match schemeChars with
    | [] => none
    | c0 :: cs =>
      if isSchemeStart c0 && cs.all isSchemeChar then
        let protocol : String := ⟨(c0 :: cs).map charLower⟩ ++ ":"
        match rest with
        | '/' :: '/' :: afterAuthority =>
          let pathPart := afterAuthority.dropWhile (fun c => c ≠ '/')
          let pathname : String := if pathPart.isEmpty then "/" else ⟨pathPart⟩
          some { protocol := protocol, pathname := pathname }
        | _ => some { protocol := protocol, pathname := ⟨rest⟩ }
      else none

/-- std posix `fromFileUrl`: percent-decode the pathname (the protocol is
already known to be `file:` at the only call site). -/
def fromFileUrl (u : URLRec) : String :=
  ⟨percentDecode u.pathname.data⟩

/-- One resolution pass of std posix `normalizeString`: drop empty and `.`
segments, let `..` pop a previous segment (or survive at the front of a
relative path when `allowAboveRoot` is set). `acc` holds the kept segments in
reverse. -/
def normalizeSegments (allowAboveRoot : Bool) : List (List Char) → List (List Char) → List (List Char)
  | acc, [] => acc.reverse
  | acc, s :: rest =>
    if s = [] ∨ s = ['.'] then normalizeSegments allowAboveRoot acc rest
    else if s = ['.', '.'] then
      match acc with
      | [] =>
        if allowAboveRoot then normalizeSegments allowAboveRoot [['.', '.']] rest
        else normalizeSegments allowAboveRoot [] rest
      | t :: acc2 =>
        if t = ['.', '.'] then normalizeSegments allowAboveRoot (s :: t :: acc2) rest
        else normalizeSegments allowAboveRoot acc2 rest
    else normalizeSegments allowAboveRoot (s :: acc) rest

/-- Interleave `/` between segments. -/
def intercalateSlash : List (List Char) → List Char
  | [] => []
  | [s] => s
  | s :: rest => s ++ '/' :: intercalateSlash rest

/-- std posix `normalize`. -/
def normalize (path : String) : String :=
  match path.data with
  | [] => "."
  | c :: cs =>
    let isAbsolute := c == '/'
    let trailingSeparator := (c :: cs).getLastD ' ' == '/'
    let body := intercalateSlash (normalizeSegments (!isAbsolute) [] (splitOnChar '/' (c :: cs)))
    let body := if body = [] ∧ !isAbsolute then ['.'] else body
    let body := if body ≠ [] ∧ trailingSeparator then body ++ ['/'] else body
    if isAbsolute then ⟨'/' :: body⟩ else ⟨body⟩

/-- std posix `join` at its two-argument call site: skip empty parts, glue
with `/`, normalise. -/
def join (a b : String) : String :=
  if a.data ≠ [] then
    if b.data ≠ [] then normalize (a ++ "/" ++ b) else normalize a
  else if b.data ≠ [] then normalize b
  else "."

/-- Outcome of `getFilePathToSave`: the `TypeError` thrown by `new URL` on an
unparsable specifier, the `AssertionError` thrown by `assert`, or a normal
return (`null` = `MapOutcome.mapped none`). -/
inductive MapOutcome where
  | urlParseError (msg : String)
  | assertionError (msg : String)
  | mapped (path : Option String)
  deriving DecidableEq, Repr

/-- Message of the `TypeError` thrown by `new URL` on an unparsable input. -/
def invalidUrlMsg (s : String) : String :=
  "Invalid URL: \x27" ++ s ++ "\x27"

/-- Message of the assertion in `getFilePathToSave`. -/
def assertMsg (entrySpecifier : String) : String :=
  "specifier is expected to start with \"file:///src\", but got \x27" ++ entrySpecifier ++ "\x27"

/-- `getFilePathToSave` (src/subcommands/download_src.ts): parse the
specifier as a URL; non-`file:` schemes map to `null`; a `file:` specifier is
asserted to have a pathname starting with `/src` (note: no trailing slash in
the assertion), then converted with `fromFileUrl`, the regexp `^/src/` is
removed from the front, and the remainder is joined onto `dir`. -/
def getFilePathToSave (entrySpecifier dir : String) : MapOutcome :=
  match parseURL entrySpecifier with
  | none => .urlParseError (invalidUrlMsg entrySpecifier)
  | some specifier =>
    if specifier.protocol ≠ "file:" then .mapped none
    else if strStartsWith specifier.pathname "/src" then
      let path := fromFileUrl specifier
      let src_removed := if strStartsWith path "/src/" then strDrop path 5 else path
      .mapped (some (join dir src_removed))
    else .assertionError (assertMsg entrySpecifier)

/-- Modelled from the spec (src/args.ts is not included under src/): the raw
arguments the subcommand receives, as read by
`parseArgsForDownloadSrcSubcommand` — the boolean `help` and `stdout` flags,
the string-valued `token` and `output-dir` flags (absent = the flag was not
given), and the positional arguments `_` with their `toString` already
applied. -/
structure RawArgs where
  help : Bool
  stdout : Bool
  token : Option String
  outputDir : Option String
  positional : List String
  deriving DecidableEq, Repr

/-- `OutputTo` (src/subcommands/download_src.ts). -/
inductive OutputTo where
  | stdout
  | fs (dir : String)
  deriving DecidableEq, Repr

/-- `DownloadSrcArgs` (src/subcommands/download_src.ts): the help mode, or
the download mode with its output target, deployment id and optional token. -/
inductive DownloadSrcArgs where
  | help
  | download (outputTo : OutputTo) (deploymentId : String) (token : Option String)
  deriving DecidableEq, Repr

/-- Result of argument resolution. `exited code msg`: modelled from the spec —
`error` (src/error.ts, not included under src/) reports `msg` to the user and
exits the process with status 1, so the parse function never returns in that
case. -/
inductive ParseOutcome where
  | exited (code : Nat) (msg : String)
  | ok (args : DownloadSrcArgs)
  deriving DecidableEq, Repr

/-- The usage-error message of `parseArgsForDownloadSrcSubcommand`. -/
def deploymentIdRequiredMsg : String :=
  "Deployment ID is required but not provided. See \x27deployctl download-src --help\x27 for more info."

/-- `parseArgsForDownloadSrcSubcommand` (src/subcommands/download_src.ts):
help flag wins; then the first positional is required (else usage error and
exit 1); then `stdout && typeof outputDir === \"string\"` routes to stdout,
else a string-valued output-dir flag routes to the filesystem, else stdout.
`token ?? null` is the identity on the optional token. -/
def parseArgsForDownloadSrcSubcommand (rawArgs : RawArgs) : ParseOutcome :=
  if rawArgs.help then
    .ok .help
  else
    match rawArgs.positional.head? with
    | none => .exited 1 deploymentIdRequiredMsg
    | some deploymentId =>
      match rawArgs.stdout, rawArgs.outputDir with
      | true, some _ => .ok (.download .stdout deploymentId rawArgs.token)
      | _, some outputDir => .ok (.download (.fs outputDir) deploymentId rawArgs.token)
      | _, none => .ok (.download .stdout deploymentId rawArgs.token)

/-- `DeploymentDownloadEntry` (src/utils/api_types.ts, via its use in
src/subcommands/download_src.ts): specifier, kind and full source text. -/
structure DeploymentDownloadEntry where
  specifier : String
  kind : String
  source : String
  deriving DecidableEq, Repr

/-- One observable side effect of filesystem-mode consumption: a recursive
mkdir, a spinner notification (info / warn / succeed / fail), or a text-file
write. -/
inductive Effect where
  | mkdirRecursive (dir : String)
  | notifyInfo (msg : String)
  | notifyWarn (msg : String)
  | notifySucceed (msg : String)
  | notifyFail (msg : String)
  | writeTextFile (path : String) (content : String)
  deriving DecidableEq, Repr

/-- Termination of filesystem-mode consumption: normal completion, or an
exception re-raised out of the `catch` block with the given message. -/
inductive DownloadOutcome where
  | success
  | thrown (msg : String)
  deriving DecidableEq, Repr

/-- The skip warning of `downloadToFs`. -/
def skipMsg (specifier : String) : String :=
  "Skipping \x27" ++ specifier ++ "\x27 because it\x27s a remote module"

/-- The entry stream as `downloadToFs` observes it: each step either yields
an entry or raises an error with the given message (ending the stream). -/
abbrev EntryStream := List (Except String DeploymentDownloadEntry)

/-- The `for await` loop of `downloadToFs` over the entry stream, recording
effects in order. A raised stream error, a specifier `new URL` throw or an
assertion failure is caught by the surrounding `catch`, which emits a
`Failed: ...` notification and re-raises; a `null` mapping emits the skip
warning and continues; a mapped path is written then reported. On normal
exhaustion the success notification is emitted. Filesystem writes themselves
are assumed to succeed (their failure takes the same catch path). -/
def downloadToFsLoop (dir : String) : EntryStream → List Effect × DownloadOutcome
  | [] => ([.notifySucceed "Done"], .success)
  | .error e :: _ => ([.notifyFail ("Failed: " ++ e)], .thrown e)
  | .ok entry :: rest =>
    match getFilePathToSave entry.specifier dir with
    | .urlParseError msg => ([.notifyFail ("Failed: " ++ msg)], .thrown msg)
    | .assertionError msg => ([.notifyFail ("Failed: " ++ msg)], .thrown msg)
    | .mapped none =>
      let r := downloadToFsLoop dir rest
      (.notifyWarn (skipMsg entry.specifier) :: r.1, r.2)
    | .mapped (some path) =>
      let r := downloadToFsLoop dir rest
      (.writeTextFile path entry.source :: .notifyInfo ("Wrote to " ++ path) :: r.1, r.2)

/-- `downloadToFs` (src/subcommands/download_src.ts): the directory-creation
preamble with its notifications, then the entry loop. -/
def downloadToFs (entryStream : EntryStream) (dir : String) : List Effect × DownloadOutcome :=
  let r := downloadToFsLoop dir entryStream
  (.notifyInfo ("Ensuring the directory \x27" ++ dir ++ "\x27 exists...") ::
   .mkdirRecursive dir ::
   .notifyInfo ("\x27" ++ dir ++ "\x27 already exists or has just been created") ::
   .notifyInfo "Starting download..." :: r.1, r.2)

/-- Modelled from the spec: `api.downloadDeployment` (src/utils/api.ts, not
included under src/) wraps any transport failure it raises while producing
the entry stream with the human-readable prefix
"Failed to download the source code: " before the failure reaches the
consumer. -/
def wrapTransportFailure (stream : EntryStream) : EntryStream :=
  stream.map fun x =>
    match x with
    | .ok entry => .ok entry
    | .error e => .error ("Failed to download the source code: " ++ e)

/-- Does this entry map to a writable path in directory `dir`? -/
def entryMapsSome (dir : String) (e : DeploymentDownloadEntry) : Bool :=
  match getFilePathToSave e.specifier dir with
  | .mapped (some _) => true
  | _ => false

/-- Is this entry skipped as remote (its mapping is `null`)? -/
def entryIsRemote (dir : String) (e : DeploymentDownloadEntry) : Bool :=
  match getFilePathToSave e.specifier dir with
  | .mapped none => true
  | _ => false

/-- An entry whose per-entry processing neither throws from URL parsing nor
fails the assertion: it is either skipped as remote or written. -/
def benignEntry (dir : String) (e : DeploymentDownloadEntry) : Bool :=
  entryIsRemote dir e || entryMapsSome dir e

/-- The effects the loop emits for one benign entry. -/
def entryEffects (dir : String) (e : DeploymentDownloadEntry) : List Effect :=
  match getFilePathToSave e.specifier dir with
  | .mapped none => [.notifyWarn (skipMsg e.specifier)]
  | .mapped (some path) => [.writeTextFile path e.source, .notifyInfo ("Wrote to " ++ path)]
  | _ => []

/-- The file write an entry produces, if any: destination path and content. -/
def entryWrite (dir : String) (e : DeploymentDownloadEntry) : Option (String × String) :=
  match getFilePathToSave e.specifier dir with
  | .mapped (some path) => some (path, e.source)
  | _ => none

/-- All file writes recorded in an effect trace, in order. -/
def writtenFiles (effs : List Effect) : List (String × String) :=
  effs.filterMap fun eff =>
    match eff with
    | .writeTextFile path content => some (path, content)
    | _ => none

/-- Is an effect a skip warning? -/
def isWarnEffect : Effect → Bool
  | .notifyWarn _ => true
  | _ => false

/-- Number of warning notifications in an effect trace. -/
def countWarns (effs : List Effect) : Nat :=
  (effs.filter isWarnEffect).length

/-- The effects the loop emits for a list of benign entries, in order. -/
def entriesEffects (dir : String) : List DeploymentDownloadEntry → List Effect
  | [] => []
  | e :: rest => entryEffects dir e ++ entriesEffects dir rest

lemma downloadToFsLoop_ok_benign (dir : String) (pre : List DeploymentDownloadEntry)
    (tail : EntryStream) (h : ∀ e ∈ pre, benignEntry dir e = true) :
    downloadToFsLoop dir (pre.map Except.ok ++ tail) =
      (entriesEffects dir pre ++ (downloadToFsLoop dir tail).1, (downloadToFsLoop dir tail).2) := by
  induction pre with
  | nil => simp [entriesEffects]
  | cons e pre ih =>
    have he : benignEntry dir e = true := h e (by simp)
    have hpre : ∀ x ∈ pre, benignEntry dir x = true := fun x hx => h x (by simp [hx])
    unfold benignEntry entryIsRemote entryMapsSome at he
    cases hmap : getFilePathToSave e.specifier dir with
    | urlParseError msg => rw [hmap] at he; simp at he
    | assertionError msg => rw [hmap] at he; simp at he
    | mapped p =>
      cases p with
      | none => simp [downloadToFsLoop, hmap, entriesEffects, entryEffects, ih hpre]
      | some path => simp [downloadToFsLoop, hmap, entriesEffects, entryEffects, ih hpre]

lemma writtenFiles_entriesEffects (dir : String) (es : List DeploymentDownloadEntry) :
    writtenFiles (entriesEffects dir es) = es.filterMap (entryWrite dir) := by
  induction es with
  | nil => simp [entriesEffects, writtenFiles]
  | cons e es ih =>
    cases hmap : getFilePathToSave e.specifier dir with
    | urlParseError msg =>
      simp [entriesEffects, entryEffects, entryWrite, hmap, writtenFiles, List.filterMap_append] at ih ⊢
      exact ih
    | assertionError msg =>
      simp [entriesEffects, entryEffects, entryWrite, hmap, writtenFiles, List.filterMap_append] at ih ⊢
      exact ih
    | mapped p =>
      cases p with
      | none =>
        simp [entriesEffects, entryEffects, entryWrite, hmap, writtenFiles, List.filterMap_append] at ih ⊢
        exact ih
      | some path =>
        simp [entriesEffects, entryEffects, entryWrite, hmap, writtenFiles, List.filterMap_append] at ih ⊢
        exact ih

lemma countWarns_entriesEffects (dir : String) (es : List DeploymentDownloadEntry) :
    countWarns (entriesEffects dir es) = (es.filter (entryIsRemote dir)).length := by
  induction es with
  | nil => simp [entriesEffects, countWarns]
  | cons e es ih =>
    cases hmap : getFilePathToSave e.specifier dir with
    | urlParseError msg =>
      simp [entriesEffects, entryEffects, entryIsRemote, hmap, countWarns, List.filter_append] at ih ⊢
      exact ih
    | assertionError msg =>
      simp [entriesEffects, entryEffects, entryIsRemote, hmap, countWarns, List.filter_append] at ih ⊢
      exact ih
    | mapped p =>
      cases p with
      | none =>
        simp [entriesEffects, entryEffects, entryIsRemote, hmap, countWarns, isWarnEffect,
          List.filter_append] at ih ⊢
        exact ih
      | some path =>
        simp [entriesEffects, entryEffects, entryIsRemote, hmap, countWarns, isWarnEffect,
          List.filter_append] at ih ⊢
        exact ih

lemma wrapTransportFailure_ok_append (pre : List DeploymentDownloadEntry) (tail : EntryStream) :
    wrapTransportFailure (pre.map Except.ok ++ tail) = pre.map Except.ok ++ wrapTransportFailure tail := by
  induction pre with
  | nil => rfl
  | cons e pre ih => simp [wrapTransportFailure]

/-- Claim C2: for every raw argument set with the help flag set, argument
resolution returns the Help action, irrespective of every other flag and even
when the positional deployment id is missing or malformed. -/
theorem parse_help_flag_wins (rawArgs : RawArgs) (h : rawArgs.help = true) :
    parseArgsForDownloadSrcSubcommand rawArgs = .ok .help := by
  simp [parseArgsForDownloadSrcSubcommand, h]

/-- Witness for C2: help together with every other flag and no positional. -/
theorem parse_help_flag_wins_witness :
    parseArgsForDownloadSrcSubcommand ⟨true, true, some "mytoken", some "./out", []⟩ = .ok .help :=
  parse_help_flag_wins _ rfl

/-- Claim C3: without a help flag, when both the stdout flag and the
directory flag are set, resolution returns Download with the Stdout target
(stdout wins the tie), the first positional as deployment id, and the token
flag value. -/
theorem parse_stdout_wins_tie (rawArgs : RawArgs) (dir id : String)
    (hhelp : rawArgs.help = false) (hstdout : rawArgs.stdout = true)
    (hdir : rawArgs.outputDir = some dir) (hid : rawArgs.positional.head? = some id) :
    parseArgsForDownloadSrcSubcommand rawArgs = .ok (.download .stdout id rawArgs.token) := by
  simp [parseArgsForDownloadSrcSubcommand, hhelp, hstdout, hdir, hid]

/-- Witness for C3: both output flags set, stdout dominates. -/
theorem parse_stdout_wins_tie_witness :
    parseArgsForDownloadSrcSubcommand ⟨false, true, some "mytoken", some "./out", ["abcd1234"]⟩ =
      .ok (.download .stdout "abcd1234" (some "mytoken")) :=
  parse_stdout_wins_tie _ "./out" "abcd1234" rfl rfl rfl rfl

/-- Claim C6: without a help flag and without a first positional argument,
resolution reports the usage message that references the help text and exits
the process with status 1; it never returns a Download action. -/
theorem parse_missing_id_usage_error (rawArgs : RawArgs)
    (hhelp : rawArgs.help = false) (hpos : rawArgs.positional = []) :
    parseArgsForDownloadSrcSubcommand rawArgs = .exited 1 deploymentIdRequiredMsg := by
  simp [parseArgsForDownloadSrcSubcommand, hhelp, hpos]

/-- Witness for C6: flags set but no positional. -/
theorem parse_missing_id_usage_error_witness :
    parseArgsForDownloadSrcSubcommand ⟨false, true, some "mytoken", some "./out", []⟩ =
      .exited 1 deploymentIdRequiredMsg :=
  parse_missing_id_usage_error _ rfl rfl

/-- Counterexample for C8 as stated: with the empty string as the first
positional, resolution succeeds with a Download action whose deploymentId is
the empty string — presence, not non-emptiness, is checked. -/
theorem parse_empty_deployment_id_accepted :
    parseArgsForDownloadSrcSubcommand ⟨false, false, none, none, [""]⟩ =
      .ok (.download .stdout "" none) := by
  decide

/-- Claim C8 (amended): every Download action produced by argument resolution
carries as deploymentId exactly the first positional argument (in its string
form); resolution never returns Download when no first positional exists,
though the carried string may be empty. -/
theorem parse_deployment_id_is_first_positional (rawArgs : RawArgs) (ot : OutputTo)
    (id : String) (tok : Option String)
    (h : parseArgsForDownloadSrcSubcommand rawArgs = .ok (.download ot id tok)) :
    rawArgs.positional.head? = some id := by
  unfold parseArgsForDownloadSrcSubcommand at h
  by_cases hh : rawArgs.help
  · simp [hh] at h
  · simp [hh] at h
    cases hpos : rawArgs.positional.head? with
    | none => rw [hpos] at h; simp at h
    | some id0 =>
      rw [hpos] at h
      cases hs : rawArgs.stdout <;> cases ho : rawArgs.outputDir <;>
        rw [hs, ho] at h <;> simp_all

/-- Witness for C8's amended theorem. -/
theorem parse_deployment_id_is_first_positional_witness :
    (RawArgs.mk false false none none ["abcd1234"]).positional.head? = some "abcd1234" :=
  parse_deployment_id_is_first_positional ⟨false, false, none, none, ["abcd1234"]⟩
    .stdout "abcd1234" none (by decide)

/-- Claim C9: without help and stdout flags, a directory flag given as the
empty string still counts as set (truthy-as-string check, not a presence
check): resolution returns Download with the Filesystem target and the empty
directory string. -/
theorem parse_empty_dir_counts_as_set (rawArgs : RawArgs) (id : String)
    (hhelp : rawArgs.help = false) (hstdout : rawArgs.stdout = false)
    (hdir : rawArgs.outputDir = some "") (hid : rawArgs.positional.head? = some id) :
    parseArgsForDownloadSrcSubcommand rawArgs = .ok (.download (.fs "") id rawArgs.token) := by
  simp [parseArgsForDownloadSrcSubcommand, hhelp, hstdout, hdir, hid]

/-- Witness for C9. -/
theorem parse_empty_dir_counts_as_set_witness :
    parseArgsForDownloadSrcSubcommand ⟨false, false, none, some "", ["abcd1234"]⟩ =
      .ok (.download (.fs "") "abcd1234" none) :=
  parse_empty_dir_counts_as_set _ "abcd1234" rfl rfl rfl rfl

/-- Counterexample for C1 as stated: the pathname of `file:///srca.js` does
not begin with `/src/`, yet `getFilePathToSave` does not abort — the code
asserts the prefix `/src` without the trailing slash, so this specifier
passes the assertion and is mapped. -/
theorem mapper_src_without_slash_not_aborted :
    parseURL "file:///srca.js" = some ⟨"file:", "/srca.js"⟩ ∧
    strStartsWith "/srca.js" "/src/" = false ∧
    getFilePathToSave "file:///srca.js" "out" = .mapped (some "out/srca.js") := by
  decide

/-- Claim C1 (amended): for every specifier whose scheme is the local-file
scheme but whose path component does not begin with `/src` (the prefix the
assertion actually checks — without the trailing slash), `getFilePathToSave`
aborts with the assertion diagnostic instead of returning a mapped path or
None. -/
theorem mapper_aborts_without_src_root (s dir : String) (u : URLRec)
    (hp : parseURL s = some u) (hproto : u.protocol = "file:")
    (hsrc : strStartsWith u.pathname "/src" = false) :
    getFilePathToSave s dir = .assertionError (assertMsg s) := by
  unfold getFilePathToSave
  rw [hp]
  simp [hproto, hsrc]

/-- Witness for C1's amended theorem. -/
theorem mapper_aborts_without_src_root_witness :
    getFilePathToSave "file:///etc/a.js" "out" = .assertionError (assertMsg "file:///etc/a.js") :=
  mapper_aborts_without_src_root _ "out" ⟨"file:", "/etc/a.js"⟩ (by decide) rfl (by decide)

/-- Claim C4: the mapper round-trips — `file:///src/a/b.js` with root
`./out` gives `out/a/b.js`, with root `/tmp` gives `/tmp/a/b.js`; a doubled
src segment strips only the single leading `/src/`; in general a local
specifier passing the assertion with a `/src/`-rooted decoded path maps to
the platform-safe join of the root and the remainder after the leading
`/src/`; a specifier whose scheme is not the local-file scheme maps to None
regardless of root. -/
theorem mapper_roundtrip :
    getFilePathToSave "file:///src/a/b.js" "./out" = .mapped (some "out/a/b.js") ∧
    getFilePathToSave "file:///src/a/b.js" "/tmp" = .mapped (some "/tmp/a/b.js") ∧
    getFilePathToSave "file:///src/src/a.js" "./out" = .mapped (some "out/src/a.js") ∧
    (∀ s dir : String, ∀ u : URLRec, parseURL s = some u → u.protocol = "file:" →
      strStartsWith u.pathname "/src" = true → strStartsWith (fromFileUrl u) "/src/" = true →
      getFilePathToSave s dir = .mapped (some (join dir (strDrop (fromFileUrl u) 5)))) ∧
    (∀ s dir : String, ∀ u : URLRec, parseURL s = some u → u.protocol ≠ "file:" →
      getFilePathToSave s dir = .mapped none) := by
  refine ⟨by decide, by decide, by decide, ?_, ?_⟩
  · intro s dir u hp hproto hsrc hdec
    unfold getFilePathToSave
    rw [hp]
    simp [hproto, hsrc, hdec]
  · intro s dir u hp hproto
    unfold getFilePathToSave
    rw [hp]
    simp [hproto]

/-- Witness for C4: the two quantified conjuncts applied at a remote module
URI and at a fresh local specifier. -/
theorem mapper_roundtrip_witness :
    getFilePathToSave "https://deno.land/std@0.177.0/async/delay.ts" "./out" = .mapped none ∧
    getFilePathToSave "file:///src/mod.ts" "dest" =
      .mapped (some (join "dest" (strDrop (fromFileUrl ⟨"file:", "/src/mod.ts"⟩) 5))) :=
  ⟨mapper_roundtrip.2.2.2.2 _ "./out" ⟨"https:", "/std@0.177.0/async/delay.ts"⟩
      (by decide) (by decide),
   mapper_roundtrip.2.2.2.1 _ "dest" ⟨"file:", "/src/mod.ts"⟩ (by decide) rfl
      (by decide) (by decide)⟩

/-- Claim C10: `getFilePathToSave` is not total over arbitrary specifier
strings — applied to `not a url`, which is not a parseable absolute URI, it
throws from URL parsing instead of returning None or a mapped path. -/
theorem mapper_throws_on_unparsable (dir : String) :
    getFilePathToSave "not a url" dir = .urlParseError (invalidUrlMsg "not a url") := by
  have h : parseURL "not a url" = none := by decide
  unfold getFilePathToSave
  rw [h]

/-- Claim C5: in filesystem mode, over a stream of entries none of which
throws (each is either remote-skipped or locally mapped), consumption
succeeds, the files written are exactly the mapped local entries in stream
order with their sources, and the warning notifications number exactly the
remote entries — so a non-local entry is never written and each is skipped
with one warning. -/
theorem fs_mode_writes_local_skips_remote (dir : String) (entries : List DeploymentDownloadEntry)
    (h : ∀ e ∈ entries, benignEntry dir e = true) :
    (downloadToFs (entries.map Except.ok) dir).2 = .success ∧
    writtenFiles (downloadToFs (entries.map Except.ok) dir).1 = entries.filterMap (entryWrite dir) ∧
    countWarns (downloadToFs (entries.map Except.ok) dir).1 =
      (entries.filter (entryIsRemote dir)).length := by
  have hloop := downloadToFsLoop_ok_benign dir entries [] h
  rw [List.append_nil] at hloop
  refine ⟨?_, ?_, ?_⟩
  · simp [downloadToFs, hloop, downloadToFsLoop]
  · have hw := writtenFiles_entriesEffects dir entries
    simp [downloadToFs, hloop, downloadToFsLoop, writtenFiles, List.filterMap_append] at hw ⊢
    exact hw
  · have hc := countWarns_entriesEffects dir entries
    simp [downloadToFs, hloop, downloadToFsLoop, countWarns, List.filter_append,
      isWarnEffect] at hc ⊢
    exact hc

/-- Witness for C5: a two-entry stream, one local and one remote — exactly
one file is written and exactly one skip warning is emitted, with success. -/
theorem fs_mode_writes_local_skips_remote_witness :
    (downloadToFs ([⟨"file:///src/a.js", "module", "code-a"⟩,
        ⟨"https://deno.land/std@0.177.0/async/delay.ts", "module", "code-b"⟩].map Except.ok)
        "./out").2 = .success ∧
    writtenFiles (downloadToFs ([⟨"file:///src/a.js", "module", "code-a"⟩,
        ⟨"https://deno.land/std@0.177.0/async/delay.ts", "module", "code-b"⟩].map Except.ok)
        "./out").1 = [("out/a.js", "code-a")] ∧
    countWarns (downloadToFs ([⟨"file:///src/a.js", "module", "code-a"⟩,
        ⟨"https://deno.land/std@0.177.0/async/delay.ts", "module", "code-b"⟩].map Except.ok)
        "./out").1 = 1 := by
  have h := fs_mode_writes_local_skips_remote "./out"
    [⟨"file:///src/a.js", "module", "code-a"⟩,
     ⟨"https://deno.land/std@0.177.0/async/delay.ts", "module", "code-b"⟩] (by decide)
  exact ⟨h.1, h.2.1.trans (by decide), h.2.2.trans (by decide)⟩

/-- Claim C7: a transport failure raised while iterating the entry stream is
surfaced to the consumer wrapped with the prefix "Failed to download the
source code: " and is re-raised out of the catch block (the outcome is the
thrown wrapped error, not success); iteration aborts there — the result is
identical whatever entries would have followed the failure, so no per-entry
retry happens. -/
theorem transport_failure_wrapped_and_reraised (dir e : String)
    (pre : List DeploymentDownloadEntry) (rest : EntryStream)
    (h : ∀ x ∈ pre, benignEntry dir x = true) :
    downloadToFs (wrapTransportFailure (pre.map Except.ok ++ Except.error e :: rest)) dir =
      downloadToFs (wrapTransportFailure (pre.map Except.ok ++ [Except.error e])) dir ∧
    (downloadToFs (wrapTransportFailure (pre.map Except.ok ++ Except.error e :: rest)) dir).2 =
      .thrown ("Failed to download the source code: " ++ e) := by
  rw [wrapTransportFailure_ok_append pre (Except.error e :: rest),
    wrapTransportFailure_ok_append pre [Except.error e]]
  have hw : ∀ tl : EntryStream, wrapTransportFailure (Except.error e :: tl) =
      Except.error ("Failed to download the source code: " ++ e) :: wrapTransportFailure tl := by
    intro tl; simp [wrapTransportFailure]
  rw [hw rest, hw []]
  have hl1 := downloadToFsLoop_ok_benign dir pre
    (Except.error ("Failed to download the source code: " ++ e) :: wrapTransportFailure rest) h
  have hl2 := downloadToFsLoop_ok_benign dir pre
    (Except.error ("Failed to download the source code: " ++ e) :: wrapTransportFailure []) h
  constructor
  · simp [downloadToFs, hl1, hl2, downloadToFsLoop]
  · simp [downloadToFs, hl1, downloadToFsLoop]

/-- Witness for C7: a failing transport step followed by an entry that is
never processed. -/
theorem transport_failure_wrapped_and_reraised_witness :
    (downloadToFs (wrapTransportFailure
        (Except.error "connection reset" :: [Except.ok ⟨"file:///src/a.js", "module", "x"⟩]))
        "./out").2 =
      .thrown ("Failed to download the source code: " ++ "connection reset") :=
  (transport_failure_wrapped_and_reraised "./out" "connection reset" []
    [Except.ok ⟨"file:///src/a.js", "module", "x"⟩] (by simp)).2

end DeployCtl
